import Mathlib

/-!
Verification of the token-based authentication and verification subsystem of
the money-backend repository (Flask + MongoDB).

The embedding models:
  * the JWT codec (`app/utils/auth.py`: `generate_token`, `decode_token`,
    `token_required`),
  * the auth routes (`app/routes/auth_routes.py`: `register`, `login`,
    `forgot_password`, `reset_password`, `verify_email`),
  * the verification-token ledger (`app/utils/email_service.py`:
    `save_verification_token`, `save_password_reset_token`).

MongoDB collections are embedded as Lean lists in insertion order:
`find_one` is `List.find?`, `update_one` updates the first matching record,
`delete_one` removes the first matching record, `delete_many` filters, and
`insert_one` appends.  Timestamps are naturals (seconds).  Werkzeug's salted
password hashing is modelled by a deterministic injective hash paired with
its checker, which is all the routes rely on.  The PyJWT library (not part
of this repository) is modelled per its documented semantics: a decoded
token fails with the expired error exactly when the current time is at or
past the `exp` claim, and with the invalid error when the signature (here:
the signing key) does not match.
-/

namespace MoneyBackend

/-- Update the first element of a list satisfying `p` (MongoDB `update_one`). -/
def updateFirst (p : α → Bool) (f : α → α) : List α → List α
  | [] => []
  | x :: xs => if p x then f x :: xs else x :: updateFirst p f xs

/-- Remove the first element of a list satisfying `p` (MongoDB `delete_one`). -/
def removeFirst (p : α → Bool) : List α → List α
  | [] => []
  | x :: xs => if p x then xs else x :: removeFirst p xs

/-! ## JWT codec (`app/utils/auth.py`) -/

/-- The JWT payload built by `generate_token`:
`{'exp': now + 1 day, 'iat': now, 'sub': str(user_id), 'role': role}`. -/
structure JwtPayload where
  exp : Nat
  iat : Nat
  sub : String
  role : String
deriving Repr, DecidableEq

/-- A signed token: the payload together with the key it was signed with.
Signature verification succeeds exactly when the keys agree. -/
structure Jwt where
  payload : JwtPayload
  key : String
deriving Repr, DecidableEq

/-- `generate_token(user_id, role)`: payload with a 24-hour expiry
(`timedelta(days=1)` = 86400 s), issued-at `now`, subject `str(user_id)`,
signed with the app's secret key. -/
def generate_token (user_id : Nat) (role : String) (key : String) (now : Nat) : Jwt :=
  { payload := { exp := now + 86400, iat := now, sub := toString user_id, role := role },
    key := key }

/-- Result of `decode_token`: the payload, or an error dict `{'error': msg}`. -/
inductive DecodeResult where
  | ok (payload : JwtPayload)
  | error (msg : String)
deriving Repr, DecidableEq

/-- `decode_token(token)`: PyJWT verifies the signature (key match) and the
`exp` claim; `jwt.ExpiredSignatureError` is raised when the current time is
at or past `exp`, `jwt.InvalidTokenError` on a bad signature. -/
def decode_token (t : Jwt) (key : String) (now : Nat) : DecodeResult :=
  if t.key = key then
    if t.payload.exp ≤ now then .error "Token expired. Please log in again."
    else .ok t.payload
  else .error "Invalid token. Please log in again."

/-! ## Data model -/

/-- A document of the `users` collection (fields of `User.to_dict()` plus
the stored password hash; `_id` is the Mongo object id). -/
structure UserRec where
  id : Nat
  username : String
  email : String
  password : String
  role : String
  is_active : Bool
  email_verified : Bool
  email_verification_token : Option String
deriving Repr, DecidableEq

/-- A document of the `email_verifications` / `password_resets` collections
(the verification ledger).  `user_id` is stored as `str(user_id)` in Mongo;
`str` and `ObjectId` are mutually inverse on valid ids, so it is kept as the
numeric id here. -/
structure LedgerRec where
  id : Nat
  user_id : Nat
  token : String
  type : String
  created_at : Nat
  expires_at : Nat
  used : Bool
deriving Repr, DecidableEq

/-- The database state used by the auth subsystem. -/
structure DB where
  users : List UserRec
  email_verifications : List LedgerRec
  password_resets : List LedgerRec
deriving Repr, DecidableEq

/-- An HTTP JSON response consisting of a status code and a message
(the only body shape produced by the flows modelled here, except where a
field like `email_verification_required` or a token is added, which the
route-specific response records carry explicitly). -/
structure Resp where
  status : Nat
  message : String
deriving Repr, DecidableEq

/-- Deterministic model of werkzeug's `generate_password_hash`. -/
def generate_password_hash (password : String) : String :=
  "pbkdf2-sha256$" ++ password

/-- Model of werkzeug's `check_password_hash`: accepts exactly the hashes
produced by `generate_password_hash`. -/
def check_password_hash (stored : String) (password : String) : Bool :=
  stored == generate_password_hash password

/-- A fresh `_id` for a ledger insert (Mongo generates a fresh ObjectId). -/
def freshId (l : List LedgerRec) : Nat :=
  l.foldr (fun r acc => max (r.id + 1) acc) 0

/-! ## Python string primitives

Python's `str.strip`, `str.lower`, `in`, `str.split` and `int`-style parsing
are modelled structurally over the character list of a `String` (ASCII
scope, which covers every string these routes manipulate). -/

/-- Python `str.strip()` on a character list: drop whitespace on both ends. -/
def trimChars (l : List Char) : List Char :=
  ((l.dropWhile Char.isWhitespace).reverse.dropWhile Char.isWhitespace).reverse

/-- Python `str.strip()`. -/
def pyStrip (s : String) : String := ⟨trimChars s.data⟩

/-- Python `str.lower()`. -/
def pyLower (s : String) : String := ⟨s.data.map Char.toLower⟩

/-- Python `c in s` for a single character. -/
def pyContainsChar (s : String) (c : Char) : Bool := s.data.contains c

/-- Python `str.split(sep)` for a one-character separator. -/
def splitOnChar (c : Char) : List Char → List (List Char)
  | [] => [[]]
  | x :: xs =>
    let r := splitOnChar c xs
    if x == c then [] :: r
    else
      match r with
      | [] => [[x]]
      | y :: ys => (x :: y) :: ys

/-- `ObjectId(s)` for a decoded subject: parse the decimal id back,
failing (the route's `except` branch) on a non-numeric subject. -/
def parse_object_id (s : String) : Option Nat :=
  if s.data ≠ [] ∧ s.data.all Char.isDigit then
    some (s.data.foldl (fun n c => 10 * n + (c.toNat - 48)) 0)
  else none

/-! ## login (`app/routes/auth_routes.py`) -/

/-- The user lookup of `login`: strip the input; if it contains `'@'`,
find by lowercased email, else find by case-insensitive username
(the `^name$` regex with the `i` option). -/
def find_login_user (db : DB) (username_or_email : String) : Option UserRec :=
  let n := pyStrip username_or_email
  if pyContainsChar n '@' then
    db.users.find? (fun u => u.email == pyLower n)
  else
    db.users.find? (fun u => pyLower u.username == pyLower n)

/-- The response of `login`: status, message, the issued token when any,
and the `email_verification_required` flag (absent = `false`). -/
structure LoginResp where
  status : Nat
  message : String
  token : Option Jwt
  email_verification_required : Bool
deriving Repr, DecidableEq

/-- `login`: missing fields → 400; unknown user → 401; deactivated → 403;
wrong password → 401; email unverified → 403 with
`email_verification_required: true`; otherwise `generate_token` and 200.
Missing JSON fields are modelled as empty strings (both are falsy). -/
def login (db : DB) (username_or_email password key : String) (now : Nat) : LoginResp :=
  if username_or_email = "" ∨ password = "" then
    ⟨400, "Username/email and password are required", none, false⟩
  else
    match find_login_user db username_or_email with
    | none => ⟨401, "Invalid username/email or password", none, false⟩
    | some user =>
      if user.is_active = false then
        ⟨403, "Account is deactivated. Please contact support.", none, false⟩
      else if check_password_hash user.password password = false then
        ⟨401, "Invalid username/email or password", none, false⟩
      else if user.email_verified = false then
        ⟨403, "Please verify your email address before logging in. Check your email inbox for the verification link.",
          none, true⟩
      else
        ⟨200, "Login successful", some (generate_token user.id user.role key now), false⟩

/-! ## Validation helpers (`app/routes/auth_routes.py`) -/

/-- A regex `\w` word character (ASCII scope): letter, digit or `_`. -/
def isWordChar (c : Char) : Bool := c.isAlphanum || c == '_'

/-- A character of the class `[\w\.-]` of the email regex. -/
def isEmailAtomChar (c : Char) : Bool := isWordChar c || c == '.' || c == '-'

/-- `is_valid_email`: full match of `^[\w\.-]+@[\w\.-]+\.\w+$`.
The classes exclude `'@'`, so the string is `local@domain` with exactly one
`'@'`; the domain must end in `'.'` followed by a nonempty word-only label,
with a nonempty `[\w\.-]+` part before that dot. -/
def is_valid_email (email : String) : Bool :=
  match splitOnChar '@' email.data with
  | [localPart, domain] =>
    (!localPart.isEmpty) && localPart.all isEmailAtomChar &&
    (let ps := splitOnChar '.' domain
     decide (2 ≤ ps.length) &&
     (match ps.getLast? with
      | some tld => (!tld.isEmpty) && tld.all isWordChar
      | none => false) &&
     (ps.dropLast ≠ [[]] : Bool) &&
     ps.dropLast.all (fun part => part.all isEmailAtomChar))
  | _ => false

/-- `is_strong_password`: at least 8 characters, with at least one digit
and at least one letter (Python `isdigit` / `isalpha`, ASCII scope). -/
def is_strong_password (password : String) : Bool :=
  if password.data.length < 8 then false
  else password.data.any Char.isDigit && password.data.any Char.isAlpha

/-! ## Verification ledger (`app/utils/email_service.py`) -/

/-- `save_verification_token(user_id, token)`: delete every
`email_verifications` record of this user with type `email_verification`,
then insert a fresh unused record expiring in 24 hours. -/
def save_verification_token (db : DB) (user_id : Nat) (token : String) (now : Nat) : DB :=
  let cleaned := db.email_verifications.filter
    (fun r => !(r.user_id == user_id && r.type == "email_verification"))
  let newRec : LedgerRec :=
    { id := freshId db.email_verifications, user_id := user_id, token := token,
      type := "email_verification", created_at := now, expires_at := now + 24 * 3600,
      used := false }
  { db with email_verifications := cleaned ++ [newRec] }

/-- `save_password_reset_token(user_id, token)`: delete every
`password_resets` record of this user (no type filter in the source), then
insert a fresh unused record expiring in 1 hour. -/
def save_password_reset_token (db : DB) (user_id : Nat) (token : String) (now : Nat) : DB :=
  let cleaned := db.password_resets.filter (fun r => !(r.user_id == user_id))
  let newRec : LedgerRec :=
    { id := freshId db.password_resets, user_id := user_id, token := token,
      type := "password_reset", created_at := now, expires_at := now + 3600,
      used := false }
  { db with password_resets := cleaned ++ [newRec] }

/-! ## verify_email (`app/routes/auth_routes.py`) -/

/-- `verify_email`: look up the token in `email_verifications`; reject when
absent, already used (idempotent 200 when the owning user is already
verified), or expired; otherwise conditionally mark it used
(`update_one` guarded by `used: False`), then set the user's
`email_verified` and unset the raw token field, re-checking the user when
that update modified nothing.  Returns the response and the new state. -/
def verify_email (db : DB) (token : String) (now : Nat) : Resp × DB :=
  if token = "" then (⟨400, "Verification token is required"⟩, db)
  else
    match db.email_verifications.find?
        (fun r => r.token == token && r.type == "email_verification") with
    | none => (⟨400, "Invalid verification token"⟩, db)
    | some tokenRec =>
      if tokenRec.used then
        match db.users.find? (fun u => u.id == tokenRec.user_id) with
        | some user =>
          if user.email_verified then
            (⟨200, "Email is already verified. You can now log in."⟩, db)
          else
            (⟨400, "This verification link has already been used"⟩, db)
        | none => (⟨400, "This verification link has already been used"⟩, db)
      else if tokenRec.expires_at ≤ now then
        (⟨400, "Verification link has expired. Please request a new one."⟩, db)
      else
        let markMatched := db.email_verifications.any
          (fun r => r.id == tokenRec.id && !r.used)
        let markedLedger := updateFirst (fun r => r.id == tokenRec.id && !r.used)
          (fun r => { r with used := true }) db.email_verifications
        let db1 : DB := { db with email_verifications := markedLedger }
        if !markMatched then
          (⟨400, "This verification link has already been used"⟩, db1)
        else
          let userModified :=
            match db1.users.find? (fun u => u.id == tokenRec.user_id) with
            | none => false
            | some u => !u.email_verified || u.email_verification_token.isSome
          let verifiedUsers := updateFirst (fun u => u.id == tokenRec.user_id)
            (fun u => { u with email_verified := true,
                               email_verification_token := none }) db1.users
          let db2 : DB := { db1 with users := verifiedUsers }
          if userModified then
            (⟨200, "Email verified successfully. You can now log in."⟩, db2)
          else
            match db2.users.find? (fun u => u.id == tokenRec.user_id) with
            | some u =>
              if u.email_verified then
                (⟨200, "Email is already verified. You can now log in."⟩, db2)
              else (⟨404, "User not found"⟩, db2)
            | none => (⟨404, "User not found"⟩, db2)

/-! ## reset_password and forgot_password (`app/routes/auth_routes.py`) -/

/-- `reset_password`: require token and password, check password strength,
find an unexpired `password_resets` record by exact token (no type filter),
replace the user's password hash, delete the reset record by `_id`, then
send a best-effort notification whose outcome (`notifyOk`) is ignored. -/
def reset_password (db : DB) (token password : String) (notifyOk : Bool) (now : Nat) :
    Resp × DB :=
  if token = "" ∨ password = "" then
    (⟨400, "Token and password are required"⟩, db)
  else if !is_strong_password password then
    (⟨400, "Password must be at least 8 characters and include both letters and numbers"⟩, db)
  else
    match db.password_resets.find?
        (fun r => r.token == token && decide (now < r.expires_at)) with
    | none => (⟨400, "Invalid or expired token"⟩, db)
    | some resetRec =>
      let hashed := generate_password_hash password
      let rehashedUsers := updateFirst (fun u => u.id == resetRec.user_id)
        (fun u => { u with password := hashed }) db.users
      let db1 : DB := { db with users := rehashedUsers }
      let remainingResets := removeFirst (fun r => r.id == resetRec.id) db1.password_resets
      let db2 : DB := { db1 with password_resets := remainingResets }
      (⟨200, "Password reset successful"⟩, db2)

/-- `forgot_password`: require and normalise the email, return the generic
200 for an unknown email, 400 for an unverified account, otherwise save a
reset token and send the email (`sendOk` is the transport outcome),
answering 200 on success and 500 on failure.  `reset_token` stands for the
freshly generated random token. -/
def forgot_password (db : DB) (email reset_token : String) (sendOk : Bool) (now : Nat) :
    Resp × DB :=
  if email = "" then (⟨400, "Email is required"⟩, db)
  else
    let e := pyLower (pyStrip email)
    if !is_valid_email e then (⟨400, "Invalid email format"⟩, db)
    else
      match db.users.find? (fun u => u.email == e) with
      | none => (⟨200, "If the email exists, a password reset link has been sent"⟩, db)
      | some user =>
        if !user.email_verified then
          (⟨400, "Please verify your email address first. Check your inbox for verification email."⟩, db)
        else
          let db1 := save_password_reset_token db user.id reset_token now
          if sendOk then (⟨200, "Password reset link sent to email"⟩, db1)
          else (⟨500, "Error sending email"⟩, db1)

/-! ## register (`app/routes/auth_routes.py`) -/

/-- `register`: validate the fields, reject duplicate username/email and
weak passwords, insert the user (unverified, token field set), save the
verification token, then send the verification email: on send failure
(`sendOk = false`) delete the user record and answer 500, otherwise 201.
`new_id` stands for the ObjectId Mongo assigns to the insert and
`verification_token` for the generated random token; the default-category
inserts touch only the (unmodelled) categories collection. -/
def register (db : DB) (username email password : String) (new_id : Nat)
    (verification_token : String) (sendOk : Bool) (now : Nat) : Resp × DB :=
  if username = "" ∨ email = "" ∨ password = "" then
    (⟨400, "Missing required fields"⟩, db)
  else if !is_valid_email email then
    (⟨400, "Invalid email format"⟩, db)
  else if (db.users.find? (fun u => u.username == username)).isSome then
    (⟨409, "Username already exists"⟩, db)
  else if (db.users.find? (fun u => u.email == email)).isSome then
    (⟨409, "Email already exists"⟩, db)
  else if !is_strong_password password then
    (⟨400, "Password must be at least 8 characters and include both letters and numbers"⟩, db)
  else
    let newUser : UserRec :=
      { id := new_id, username := username, email := email,
        password := generate_password_hash password, role := "user",
        is_active := true, email_verified := false,
        email_verification_token := some verification_token }
    let db1 : DB := { db with users := db.users ++ [newUser] }
    let db2 := save_verification_token db1 new_id verification_token now
    if !sendOk then
      let db3 : DB := { db2 with users := removeFirst (fun u => u.id == new_id) db2.users }
      (⟨500, "Failed to send verification email. Please try again."⟩, db3)
    else
      (⟨201, "User registered successfully. Please check your email to verify your account."⟩, db2)

/-- The user document `register` inserts (before any rollback). -/
def registered_user_doc (username email pw : String) (newId : Nat)
    (vtok : String) : UserRec :=
  { id := newId, username := username, email := email,
    password := generate_password_hash pw, role := "user",
    is_active := true, email_verified := false,
    email_verification_token := some vtok }

/-- The ledger record `save_verification_token` inserts. -/
def verification_token_doc (db : DB) (uid : Nat) (tok : String)
    (now : Nat) : LedgerRec :=
  { id := freshId db.email_verifications, user_id := uid, token := tok,
    type := "email_verification", created_at := now,
    expires_at := now + 24 * 3600, used := false }

/-! ## token_required (`app/utils/auth.py`) -/

/-- The `Authorization` header as seen by `token_required`: absent, present
without a second space-separated part (`split(" ")[1]` raises `IndexError`),
or a bearer form whose second part is empty (falsy) or a token.  The token
wire string is identified with the `Jwt` value it decodes from (JWT encoding
is injective); strings that are not valid JWTs behave as a key-mismatched
`Jwt`, which `decode_token` rejects the same way. -/
inductive AuthHeader where
  | absent
  | noSecondPart
  | bearer (token : Option Jwt)
deriving Repr, DecidableEq

/-- The outcome of the `token_required` wrapper: an error response, or the
decoded payload handed to the wrapped view. -/
inductive GateResult where
  | reject (status : Nat) (message : String)
  | accept (payload : JwtPayload)
deriving Repr, DecidableEq

/-- `token_required`: extract the bearer token (missing/unsplittable/empty →
401), decode it (error → 401 with the decode message), look up the subject
(absent → 401 "User not found"), reject deactivated accounts (401), else
pass the payload through. -/
def token_required (db : DB) (h : AuthHeader) (key : String) (now : Nat) : GateResult :=
  match h with
  | .absent => .reject 401 "Token is missing"
  | .noSecondPart => .reject 401 "Token is missing"
  | .bearer none => .reject 401 "Token is missing"
  | .bearer (some t) =>
    match decode_token t key now with
    | .error msg => .reject 401 msg
    | .ok payload =>
      match parse_object_id payload.sub with
      | none => .reject 401 "Invalid ObjectId"
      | some uid =>
        match db.users.find? (fun u => u.id == uid) with
        | none => .reject 401 "User not found"
        | some user =>
          if !user.is_active then .reject 401 "Account is deactivated"
          else .accept payload

/-! ## Concrete sample states (used by the closed witness theorems) -/

/-- The unverified sample user "alice" (correct password `Passw0rd1`). -/
def aliceUnverified : UserRec :=
  { id := 1, username := "alice", email := "alice@x.com",
    password := generate_password_hash "Passw0rd1", role := "user",
    is_active := true, email_verified := false,
    email_verification_token := some "vtok1" }

/-- A database holding only the unverified user "alice". -/
def dbUnverified : DB :=
  { users := [aliceUnverified], email_verifications := [], password_resets := [] }

/-- The pending email-verification ledger record for "alice". -/
def pendingVerification : LedgerRec :=
  { id := 1, user_id := 1, token := "vtok1", type := "email_verification",
    created_at := 0, expires_at := 86400, used := false }

/-- "alice" unverified with her pending verification token in the ledger. -/
def dbPending : DB :=
  { users := [aliceUnverified], email_verifications := [pendingVerification],
    password_resets := [] }

/-- The verified sample user "alice". -/
def aliceVerified : UserRec :=
  { id := 1, username := "alice", email := "alice@x.com",
    password := generate_password_hash "Passw0rd1", role := "user",
    is_active := true, email_verified := true, email_verification_token := none }

/-- A database holding only the verified user "alice". -/
def dbVerified : DB :=
  { users := [aliceVerified], email_verifications := [], password_resets := [] }

/-- A pending password-reset ledger record for "alice". -/
def pendingReset : LedgerRec :=
  { id := 5, user_id := 1, token := "rtok1", type := "password_reset",
    created_at := 0, expires_at := 3600, used := false }

/-- The verified "alice" with a pending password-reset token. -/
def dbReset : DB :=
  { users := [aliceVerified], email_verifications := [],
    password_resets := [pendingReset] }

/-- The deactivated sample user "carol". -/
def carolInactive : UserRec :=
  { id := 2, username := "carol", email := "carol@x.com",
    password := generate_password_hash "Passw0rd1", role := "user",
    is_active := false, email_verified := true, email_verification_token := none }

/-- A database holding only the deactivated user "carol". -/
def dbInactive : DB :=
  { users := [carolInactive], email_verifications := [], password_resets := [] }

/-! ## Theorems: C1 -/

/-- C1: decoding a token produced by `generate_token` with the same secret
key yields the payload with `sub = str(user_id)` and the given role whenever
the current time is strictly before issuance + 24 h, and yields the expired
error whenever the current time is at or past that instant. -/
theorem decode_generate_token (user_id : Nat) (role key : String) (t_issue t_now : Nat) :
    (t_now < t_issue + 86400 →
      decode_token (generate_token user_id role key t_issue) key t_now =
        .ok { exp := t_issue + 86400, iat := t_issue, sub := toString user_id, role := role }) ∧
    (t_issue + 86400 ≤ t_now →
      decode_token (generate_token user_id role key t_issue) key t_now =
        .error "Token expired. Please log in again.") := by
  constructor
  · intro h
    simp [decode_token, generate_token, Nat.not_le.mpr h]
  · intro h
    simp [decode_token, generate_token, h]

/-- Witness for C1 at `user_id = 7`, `role = "admin"`, issued at 100,
checked at 86499 (just before expiry) and at 86500 (the expiry instant). -/
theorem decode_generate_token_witness :
    decode_token (generate_token 7 "admin" "secret" 100) "secret" 86499 =
      .ok { exp := 86500, iat := 100, sub := "7", role := "admin" } ∧
    decode_token (generate_token 7 "admin" "secret" 100) "secret" 86500 =
      .error "Token expired. Please log in again." :=
  ⟨(decode_generate_token 7 "admin" "secret" 100 86499).1 (by decide),
   (decode_generate_token 7 "admin" "secret" 100 86500).2 (by decide)⟩

/-! ## Theorems: C2 -/

/-- C2: a stored user with `email_verified = false` never receives a token
from `login`: the lookup succeeding on such a user forces `token = none`,
and with correct credentials (active account, matching password) the
response is exactly the 403 with `email_verification_required: true`;
conversely whenever `login` returns a token, the looked-up user has
`email_verified = true` (so `generate_token` is reached only for verified
users). -/
theorem login_unverified_never_token :
    (∀ (db : DB) (name pw key : String) (now : Nat) (u : UserRec),
        name ≠ "" → pw ≠ "" →
        find_login_user db name = some u → u.email_verified = false →
        (login db name pw key now).token = none ∧
        (u.is_active = true → check_password_hash u.password pw = true →
          login db name pw key now =
            ⟨403, "Please verify your email address before logging in. Check your email inbox for the verification link.",
              none, true⟩)) ∧
    (∀ (db : DB) (name pw key : String) (now : Nat) (t : Jwt),
        (login db name pw key now).token = some t →
        ∃ u, find_login_user db name = some u ∧ u.email_verified = true ∧
          t = generate_token u.id u.role key now) := by
  constructor
  · intro db name pw key now u hn hp hfind hver
    refine ⟨?_, ?_⟩
    · by_cases hact : u.is_active
      · by_cases hck : check_password_hash u.password pw
        · simp [login, hn, hp, hfind, hact, hck, hver]
        · simp [login, hn, hp, hfind, hact, hck]
      · simp [login, hn, hp, hfind, hact]
    · intro hact hck
      simp [login, hn, hp, hfind, hact, hck, hver]
  · intro db name pw key now t htok
    unfold login at htok
    split at htok
    · simp at htok
    · split at htok
      · simp at htok
      · rename_i user hfind
        split at htok
        · simp at htok
        · split at htok
          · simp at htok
          · split at htok
            · simp at htok
            · rename_i hact hck hver
              simp only [Option.some.injEq] at htok
              exact ⟨user, hfind, by simpa using hver, htok.symm⟩

/-- Witness for C2: logging in as the unverified "alice" with the correct
password yields no token and the 403 verification-required response. -/
theorem login_unverified_never_token_witness :
    (login dbUnverified "alice" "Passw0rd1" "k" 0).token = none ∧
    login dbUnverified "alice" "Passw0rd1" "k" 0 =
      ⟨403, "Please verify your email address before logging in. Check your email inbox for the verification link.",
        none, true⟩ := by
  have h := login_unverified_never_token.1 dbUnverified "alice" "Passw0rd1" "k" 0
    aliceUnverified (by decide) (by decide) (by decide) (by rfl)
  exact ⟨h.1, h.2 (by rfl) (by rfl)⟩

/-! ## Helper lemmas on the collection primitives -/

theorem mem_of_mem_removeFirst {p : α → Bool} :
    ∀ {l : List α} {y : α}, y ∈ removeFirst p l → y ∈ l := by
  intro l
  induction l with
  | nil => intro y hy; simp [removeFirst] at hy
  | cons x xs ih =>
    intro y hy
    cases hx : p x with
    | true =>
      rw [removeFirst, if_pos hx] at hy
      exact List.mem_cons_of_mem x hy
    | false =>
      rw [removeFirst, if_neg (by simp [hx])] at hy
      rcases List.mem_cons.mp hy with rfl | hy
      · exact List.mem_cons_self _ _
      · exact List.mem_cons_of_mem x (ih hy)

theorem find?_updateFirst_same {p : α → Bool} {f : α → α} :
    ∀ {l : List α} {x : α}, List.find? p l = some x → p (f x) = true →
      List.find? p (updateFirst p f l) = some (f x) := by
  intro l
  induction l with
  | nil => intro x h _; simp at h
  | cons a as ih =>
    intro x h hf
    cases ha : p a with
    | true =>
      rw [List.find?_cons, ha] at h
      have hax : a = x := by simpa using h
      subst hax
      rw [updateFirst, if_pos ha, List.find?_cons, hf]
    | false =>
      rw [List.find?_cons, ha] at h
      rw [updateFirst, if_neg (by simp [ha]), List.find?_cons, ha]
      exact ih h hf

theorem find?_updateFirst_of_unique {P Q : α → Bool} {f : α → α} :
    ∀ {l : List α} {x : α}, List.find? P l = some x →
      (∀ y ∈ l, Q y = true → y = x) → Q x = true → P (f x) = true →
      List.find? P (updateFirst Q f l) = some (f x) := by
  intro l
  induction l with
  | nil => intro x h _ _ _; simp at h
  | cons a as ih =>
    intro x hfind hQ hQx hPf
    cases hPa : P a with
    | true =>
      rw [List.find?_cons, hPa] at hfind
      have hax : a = x := by simpa using hfind
      subst hax
      rw [updateFirst, if_pos hQx, List.find?_cons, hPf]
    | false =>
      rw [List.find?_cons, hPa] at hfind
      have hQa : Q a = false := by
        cases hqa : Q a with
        | false => rfl
        | true =>
          have hax := hQ a (List.mem_cons_self a as) hqa
          subst hax
          exact absurd (List.find?_some hfind) (by simp [hPa])
      rw [updateFirst, if_neg (by simp [hQa]), List.find?_cons, hPa]
      exact ih hfind (fun y hy hq => hQ y (List.mem_cons_of_mem a hy) hq) hQx hPf

theorem removeFirst_append_singleton {p : α → Bool} :
    ∀ (l : List α) (x : α), (∀ y ∈ l, p y = false) → p x = true →
      removeFirst p (l ++ [x]) = l := by
  intro l
  induction l with
  | nil => intro x _ hx; simp [removeFirst, hx]
  | cons a as ih =>
    intro x hl hx
    have ha : p a = false := hl a (List.mem_cons_self a as)
    rw [List.cons_append, removeFirst, if_neg (by simp [ha])]
    rw [ih x (fun y hy => hl y (List.mem_cons_of_mem a hy)) hx]

theorem find?_append_of_none {p : α → Bool} :
    ∀ (l₁ l₂ : List α), (∀ y ∈ l₁, p y = false) →
      List.find? p (l₁ ++ l₂) = List.find? p l₂ := by
  intro l₁
  induction l₁ with
  | nil => intro l₂ _; rfl
  | cons a as ih =>
    intro l₂ hl
    have ha : p a = false := hl a (List.mem_cons_self a as)
    rw [List.cons_append, List.find?_cons, ha]
    exact ih l₂ (fun y hy => hl y (List.mem_cons_of_mem a hy))

theorem removeFirst_no_match [DecidableEq α] {q : α → Bool} {x : α} :
    ∀ (l : List α), (∀ y ∈ l, q y = true → y = x) → List.count x l ≤ 1 →
      ∀ y ∈ removeFirst q l, q y = false := by
  intro l
  induction l with
  | nil => intro _ _ y hy; simp [removeFirst] at hy
  | cons a as ih =>
    intro hq hcount y hy
    cases hqa : q a with
    | true =>
      rw [removeFirst, if_pos hqa] at hy
      have hax : a = x := hq a (List.mem_cons_self a as) hqa
      cases hqy : q y with
      | false => rfl
      | true =>
        have hyx : y = x := hq y (List.mem_cons_of_mem a hy) hqy
        subst hax; subst hyx
        have h1 : 0 < List.count y as := List.count_pos_iff.mpr hy
        have h2 : List.count y (y :: as) = List.count y as + 1 := by
          simp [List.count_cons]
        omega
    | false =>
      rw [removeFirst, if_neg (by simp [hqa])] at hy
      rcases List.mem_cons.mp hy with rfl | hy
      · exact hqa
      · have hcount' : List.count x as ≤ 1 := by
          have := List.count_cons x a as
          omega
        exact ih (fun z hz hqz => hq z (List.mem_cons_of_mem a hz) hqz) hcount' y hy

/-! ## Theorems: C3 -/

/-- C3: redeeming a pending verification token verifies the owning user
(HTTP 200); redeeming it again changes no state and, since the owner is now
verified, answers the idempotent 200 success rather than an error; and in
general a used token whose owner is not verified answers the 400
already-used error without changing state. -/
theorem verify_email_double_redemption
    (db : DB) (t : String) (now now2 : Nat) (tokenRec : LedgerRec) (u : UserRec)
    (ht : t ≠ "")
    (hids : (db.email_verifications.map LedgerRec.id).Nodup)
    (hfind : db.email_verifications.find?
      (fun r => r.token == t && r.type == "email_verification") = some tokenRec)
    (hused : tokenRec.used = false)
    (hexp : now < tokenRec.expires_at)
    (huser : db.users.find? (fun v => v.id == tokenRec.user_id) = some u)
    (huv : u.email_verified = false) :
    (verify_email db t now).1 =
      ⟨200, "Email verified successfully. You can now log in."⟩ ∧
    (verify_email db t now).2.users.find? (fun v => v.id == tokenRec.user_id) =
      some { u with email_verified := true, email_verification_token := none } ∧
    verify_email (verify_email db t now).2 t now2 =
      (⟨200, "Email is already verified. You can now log in."⟩,
        (verify_email db t now).2) ∧
    (∀ (db' : DB) (rec' : LedgerRec),
      db'.email_verifications.find?
        (fun r => r.token == t && r.type == "email_verification") = some rec' →
      rec'.used = true →
      (∀ u', db'.users.find? (fun v => v.id == rec'.user_id) = some u' →
        u'.email_verified = false) →
      verify_email db' t now2 =
        (⟨400, "This verification link has already been used"⟩, db')) := by
  have hPrec : (tokenRec.token == t && tokenRec.type == "email_verification") = true := by
    simpa using List.find?_some hfind
  have hrecmem : tokenRec ∈ db.email_verifications := List.mem_of_find?_eq_some hfind
  have humem : u ∈ db.users := List.mem_of_find?_eq_some huser
  have huid : (u.id == tokenRec.user_id) = true := by
    simpa using List.find?_some huser
  have hnl : ¬(tokenRec.expires_at ≤ now) := Nat.not_le.mpr hexp
  have hmark : (db.email_verifications.any
      (fun r => r.id == tokenRec.id && !r.used)) = true := by
    rw [List.any_eq_true]
    exact ⟨tokenRec, hrecmem, by simp [hused]⟩
  have hrun : verify_email db t now =
      (⟨200, "Email verified successfully. You can now log in."⟩,
       { db with
          email_verifications := updateFirst (fun r => r.id == tokenRec.id && !r.used)
            (fun r => { r with used := true }) db.email_verifications,
          users := updateFirst (fun v => v.id == tokenRec.user_id)
            (fun v => { v with email_verified := true,
                               email_verification_token := none }) db.users }) := by
    simp [verify_email, ht, hfind, hused, hnl, hmark, huser, huv]
  have husers2 : (verify_email db t now).2.users.find?
      (fun v => v.id == tokenRec.user_id) =
      some { u with email_verified := true, email_verification_token := none } := by
    rw [hrun]
    exact find?_updateFirst_same huser (by simpa using huid)
  have hledger2 : (verify_email db t now).2.email_verifications.find?
      (fun r => r.token == t && r.type == "email_verification") =
      some { tokenRec with used := true } := by
    rw [hrun]
    refine find?_updateFirst_of_unique hfind ?_ (by simp [hused]) (by simpa using hPrec)
    intro y hy hq
    have hid : y.id = tokenRec.id := by
      simp only [Bool.and_eq_true, beq_iff_eq] at hq
      exact hq.1
    exact List.inj_on_of_nodup_map hids hy hrecmem hid
  refine ⟨by rw [hrun], husers2, ?_, ?_⟩
  · generalize hd2 : (verify_email db t now).2 = d2 at hledger2 husers2 ⊢
    simp [verify_email, ht, hledger2, husers2]
  · intro db' rec' hfind' hused' hunver
    simp only [verify_email, if_neg ht, hfind', hused', if_true]
    cases hu : db'.users.find? (fun v => v.id == rec'.user_id) with
    | none => simp
    | some u' => simp [hunver u' hu]

/-- Witness for C3: redeeming "alice"'s pending token at time 10 verifies
her; redeeming the same token again at time 20 is the idempotent 200 with
unchanged state. -/
theorem verify_email_double_redemption_witness :
    (verify_email dbPending "vtok1" 10).1 =
      ⟨200, "Email verified successfully. You can now log in."⟩ ∧
    verify_email (verify_email dbPending "vtok1" 10).2 "vtok1" 20 =
      (⟨200, "Email is already verified. You can now log in."⟩,
        (verify_email dbPending "vtok1" 10).2) := by
  have h := verify_email_double_redemption dbPending "vtok1" 10 20
    pendingVerification aliceUnverified (by decide) (by decide) (by rfl) (by rfl)
    (by decide) (by rfl) (by rfl)
  exact ⟨h.1, h.2.2.1⟩

/-! ## Theorems: C4 -/

/-- C4: issuing a new verification token deletes all prior ledger records
of that kind for that user before inserting the new one (for both ledger
kinds: `save_verification_token` on `email_verifications` and
`save_password_reset_token` on `password_resets`), so exactly one record of
that kind remains for the user; and redeeming a superseded
email-verification token afterwards fails with the 400 invalid-token
(not-found) response, the record being absent. -/
theorem save_verification_token_supersedes
    (db : DB) (uid : Nat) (newTok oldTok : String) (now now2 : Nat)
    (hold : oldTok ≠ "")
    (hnew : newTok ≠ oldTok)
    (hscope : ∀ r ∈ db.email_verifications, r.token = oldTok →
      r.user_id = uid ∧ r.type = "email_verification") :
    (save_verification_token db uid newTok now).email_verifications.filter
        (fun r => r.user_id == uid && r.type == "email_verification") =
      [{ id := freshId db.email_verifications, user_id := uid, token := newTok,
         type := "email_verification", created_at := now,
         expires_at := now + 24 * 3600, used := false }] ∧
    (save_password_reset_token db uid newTok now).password_resets.filter
        (fun r => r.user_id == uid) =
      [{ id := freshId db.password_resets, user_id := uid, token := newTok,
         type := "password_reset", created_at := now, expires_at := now + 3600,
         used := false }] ∧
    verify_email (save_verification_token db uid newTok now) oldTok now2 =
      (⟨400, "Invalid verification token"⟩,
        save_verification_token db uid newTok now) := by
  have hnone : (save_verification_token db uid newTok now).email_verifications.find?
      (fun r => r.token == oldTok && r.type == "email_verification") = none := by
    rw [List.find?_eq_none]
    intro x hx hP
    simp only [Bool.and_eq_true, beq_iff_eq] at hP
    simp only [save_verification_token] at hx
    rcases List.mem_append.mp hx with hx | hx
    · have hxf := List.mem_filter.mp hx
      have hsc := hscope x hxf.1 hP.1
      simp [hsc.1, hsc.2] at hxf
    · have hxe : x.token = newTok := by
        simp only [List.mem_singleton] at hx
        rw [hx]
      exact hnew (hxe ▸ hP.1)
  refine ⟨?_, ?_, ?_⟩
  · simp [save_verification_token, List.filter_append, List.filter_filter]
  · simp [save_password_reset_token, List.filter_append, List.filter_filter]
  · simp [verify_email, hold, hnone]

/-- Witness for C4: after issuing "vtok2" for user 1 on top of the pending
"vtok1", exactly the new record is in the ledger for user 1 and redeeming
"vtok1" fails with the 400 invalid-token response. -/
theorem save_verification_token_supersedes_witness :
    (save_verification_token dbPending 1 "vtok2" 0).email_verifications.filter
        (fun r => r.user_id == 1 && r.type == "email_verification") =
      [{ id := 2, user_id := 1, token := "vtok2", type := "email_verification",
         created_at := 0, expires_at := 86400, used := false }] ∧
    verify_email (save_verification_token dbPending 1 "vtok2" 0) "vtok1" 5 =
      (⟨400, "Invalid verification token"⟩,
        save_verification_token dbPending 1 "vtok2" 0) := by
  have h := save_verification_token_supersedes dbPending 1 "vtok2" "vtok1" 0 5
    (by decide) (by decide) (by decide)
  exact ⟨h.1, h.2.2⟩

/-! ## Theorems: C5 -/

/-- C5: password reset is single-use by deletion: a successful reset call
answers 200, replaces the owning user's stored password hash with the hash
of the new password, and deletes the reset record, so redeeming the same
token a second time finds no record and answers the 400
"Invalid or expired token" response with unchanged state. -/
theorem reset_password_single_use
    (db : DB) (t pw : String) (notifyOk notifyOk2 : Bool) (now now2 : Nat)
    (rd : LedgerRec) (u : UserRec)
    (ht : t ≠ "")
    (hstrong : is_strong_password pw = true)
    (hids : (db.password_resets.map LedgerRec.id).Nodup)
    (htok : ∀ r ∈ db.password_resets, r.token = t → r.id = rd.id)
    (hfind : db.password_resets.find?
      (fun r => r.token == t && decide (now < r.expires_at)) = some rd)
    (huser : db.users.find? (fun v => v.id == rd.user_id) = some u) :
    (reset_password db t pw notifyOk now).1 = ⟨200, "Password reset successful"⟩ ∧
    (reset_password db t pw notifyOk now).2.users.find?
        (fun v => v.id == rd.user_id) =
      some { u with password := generate_password_hash pw } ∧
    (reset_password db t pw notifyOk now).2.password_resets =
      removeFirst (fun r => r.id == rd.id) db.password_resets ∧
    reset_password (reset_password db t pw notifyOk now).2 t pw notifyOk2 now2 =
      (⟨400, "Invalid or expired token"⟩, (reset_password db t pw notifyOk now).2) := by
  have hpw : pw ≠ "" := fun h => by
    subst h; exact absurd hstrong (by decide)
  have hrun : reset_password db t pw notifyOk now =
      (⟨200, "Password reset successful"⟩,
       { db with
          users := updateFirst (fun v => v.id == rd.user_id)
            (fun v => { v with password := generate_password_hash pw }) db.users,
          password_resets := removeFirst (fun r => r.id == rd.id)
            db.password_resets }) := by
    simp [reset_password, ht, hpw, hstrong, hfind]
  have hnone2 : (removeFirst (fun r => r.id == rd.id) db.password_resets).find?
      (fun r => r.token == t && decide (now2 < r.expires_at)) = none := by
    rw [List.find?_eq_none]
    intro y hy hP
    simp only [Bool.and_eq_true, beq_iff_eq] at hP
    have hymem : y ∈ db.password_resets := mem_of_mem_removeFirst hy
    have hyid : y.id = rd.id := htok y hymem hP.1
    have hqy : (fun r : LedgerRec => r.id == rd.id) y = false := by
      refine removeFirst_no_match (x := rd) db.password_resets ?_ ?_ y hy
      · intro z hz hqz
        simp only [beq_iff_eq] at hqz
        exact List.inj_on_of_nodup_map hids hz (List.mem_of_find?_eq_some hfind) hqz
      · exact List.nodup_iff_count_le_one.mp (List.Nodup.of_map LedgerRec.id hids) rd
    simp [hyid] at hqy
  have hpr : (reset_password db t pw notifyOk now).2.password_resets =
      removeFirst (fun r => r.id == rd.id) db.password_resets := by
    rw [hrun]
  refine ⟨by rw [hrun], ?_, hpr, ?_⟩
  · rw [hrun]
    exact find?_updateFirst_same huser (by simpa using List.find?_some huser)
  · generalize hd2 : (reset_password db t pw notifyOk now).2 = d2 at hpr ⊢
    have hnone2' : d2.password_resets.find?
        (fun r => r.token == t && decide (now2 < r.expires_at)) = none := by
      rw [hpr]; exact hnone2
    simp [reset_password, ht, hpw, hstrong, hnone2']

/-- Witness for C5: resetting with "alice"'s pending token "rtok1" answers
200 and stores the new hash; redeeming "rtok1" again answers the 400
invalid-or-expired response with unchanged state. -/
theorem reset_password_single_use_witness :
    (reset_password dbReset "rtok1" "NewPass99" false 10).1 =
      ⟨200, "Password reset successful"⟩ ∧
    (reset_password dbReset "rtok1" "NewPass99" false 10).2.users.find?
        (fun v => v.id == 1) =
      some { aliceVerified with password := generate_password_hash "NewPass99" } ∧
    reset_password (reset_password dbReset "rtok1" "NewPass99" false 10).2
        "rtok1" "NewPass99" true 20 =
      (⟨400, "Invalid or expired token"⟩,
        (reset_password dbReset "rtok1" "NewPass99" false 10).2) := by
  have h := reset_password_single_use dbReset "rtok1" "NewPass99" false true 10 20
    pendingReset aliceVerified (by decide) (by decide) (by decide) (by decide)
    (by rfl) (by rfl)
  exact ⟨h.1, h.2.1, h.2.2.2⟩

/-! ## Theorems: C10 -/

/-- C10: calling reset-password with a password failing the strength check
answers 400 and leaves the whole state unchanged, for every database state:
the token is never looked up, no reset record is removed and no password
hash is replaced, so the same token remains redeemable afterwards. -/
theorem reset_password_weak_password_rejected
    (db : DB) (t pw : String) (notifyOk : Bool) (now : Nat)
    (ht : t ≠ "") (hp : pw ≠ "")
    (hweak : is_strong_password pw = false) :
    reset_password db t pw notifyOk now =
      (⟨400, "Password must be at least 8 characters and include both letters and numbers"⟩,
        db) := by
  simp [reset_password, ht, hp, hweak]

/-- Witness for C10: a 5-character password is rejected with 400 and the
state (including the pending reset record) is untouched. -/
theorem reset_password_weak_password_rejected_witness :
    reset_password dbReset "rtok1" "abc12" false 0 =
      (⟨400, "Password must be at least 8 characters and include both letters and numbers"⟩,
        dbReset) :=
  reset_password_weak_password_rejected dbReset "rtok1" "abc12" false 0
    (by decide) (by decide) (by decide)

/-! ## Theorems: C8 and C9 -/

/-- Shared computation: the full result of `register` when the verification
email send fails, after all validations pass. -/
theorem register_send_failure_run
    (db : DB) (username email pw : String) (newId : Nat) (vtok : String) (now : Nat)
    (hu : username ≠ "") (he : email ≠ "") (hp : pw ≠ "")
    (hvalid : is_valid_email email = true)
    (hfu : db.users.find? (fun v => v.username == username) = none)
    (hfe : db.users.find? (fun v => v.email == email) = none)
    (hstrong : is_strong_password pw = true) :
    register db username email pw newId vtok false now =
      (⟨500, "Failed to send verification email. Please try again."⟩,
       { users :=
           removeFirst (fun v => v.id == newId)
             (db.users ++ [registered_user_doc username email pw newId vtok]),
         email_verifications :=
           db.email_verifications.filter
               (fun r => !(r.user_id == newId && r.type == "email_verification"))
             ++ [verification_token_doc db newId vtok now],
         password_resets := db.password_resets }) := by
  simp [register, save_verification_token, registered_user_doc,
    verification_token_doc, hu, he, hp, hvalid, hfu, hfe, hstrong]

/-- C8: registration is atomic with respect to the verification-email send
while password reset is not: when the send fails, `register` answers 500
and the users collection is exactly as before (the new record is deleted);
when the password-change notification fails (`notifyOk = false`),
`reset_password` still answers 200 and the user's stored hash is the hash
of the new password. -/
theorem register_rollback_vs_reset_no_rollback :
    (∀ (db : DB) (username email pw : String) (newId : Nat) (vtok : String) (now : Nat),
      username ≠ "" → email ≠ "" → pw ≠ "" →
      is_valid_email email = true →
      db.users.find? (fun v => v.username == username) = none →
      db.users.find? (fun v => v.email == email) = none →
      is_strong_password pw = true →
      (∀ v ∈ db.users, v.id ≠ newId) →
      (register db username email pw newId vtok false now).1 =
        ⟨500, "Failed to send verification email. Please try again."⟩ ∧
      (register db username email pw newId vtok false now).2.users = db.users) ∧
    (∀ (db : DB) (t pw : String) (now : Nat) (rd : LedgerRec) (u : UserRec),
      t ≠ "" → is_strong_password pw = true →
      db.password_resets.find?
        (fun r => r.token == t && decide (now < r.expires_at)) = some rd →
      db.users.find? (fun v => v.id == rd.user_id) = some u →
      (reset_password db t pw false now).1 = ⟨200, "Password reset successful"⟩ ∧
      (reset_password db t pw false now).2.users.find?
          (fun v => v.id == rd.user_id) =
        some { u with password := generate_password_hash pw }) := by
  constructor
  · intro db username email pw newId vtok now hu he hp hvalid hfu hfe hstrong hfresh
    have hrun := register_send_failure_run db username email pw newId vtok now
      hu he hp hvalid hfu hfe hstrong
    refine ⟨by rw [hrun], ?_⟩
    rw [hrun]
    exact removeFirst_append_singleton db.users _
      (fun y hy => by simp [hfresh y hy]) (by simp [registered_user_doc])
  · intro db t pw now rd u ht hstrong hfind huser
    have hpw : pw ≠ "" := fun h => by
      subst h; exact absurd hstrong (by decide)
    have hrun : reset_password db t pw false now =
        (⟨200, "Password reset successful"⟩,
         { db with
            users := updateFirst (fun v => v.id == rd.user_id)
              (fun v => { v with password := generate_password_hash pw }) db.users,
            password_resets := removeFirst (fun r => r.id == rd.id)
              db.password_resets }) := by
      simp [reset_password, ht, hpw, hstrong, hfind]
    refine ⟨by rw [hrun], ?_⟩
    rw [hrun]
    exact find?_updateFirst_same huser (by simpa using List.find?_some huser)

/-- Witness for C8: registering "bob" with a failing email send answers 500
and leaves the users collection as before; resetting "alice"'s password
with a failing notification still answers 200 and stores the new hash. -/
theorem register_rollback_vs_reset_no_rollback_witness :
    (register dbVerified "bob" "bob@x.com" "Passw0rd1" 7 "vtokB" false 0).1 =
      ⟨500, "Failed to send verification email. Please try again."⟩ ∧
    (register dbVerified "bob" "bob@x.com" "Passw0rd1" 7 "vtokB" false 0).2.users =
      dbVerified.users ∧
    (reset_password dbReset "rtok1" "NewPass77" false 10).1 =
      ⟨200, "Password reset successful"⟩ ∧
    (reset_password dbReset "rtok1" "NewPass77" false 10).2.users.find?
        (fun v => v.id == 1) =
      some { aliceVerified with password := generate_password_hash "NewPass77" } := by
  have h1 := register_rollback_vs_reset_no_rollback.1 dbVerified "bob" "bob@x.com"
    "Passw0rd1" 7 "vtokB" 0 (by decide) (by decide) (by decide) (by decide)
    (by rfl) (by rfl) (by decide) (by decide)
  have h2 := register_rollback_vs_reset_no_rollback.2 dbReset "rtok1" "NewPass77" 10
    pendingReset aliceVerified (by decide) (by decide) (by rfl) (by rfl)
  exact ⟨h1.1, h1.2, h2.1, h2.2⟩

/-- C9: the failed-send rollback of `register` deletes only the user
record: the response is 500, the users collection is exactly as before (so
no user with the new id exists), yet the pending verification-token record
inserted by `save_verification_token` is still present in the
`email_verifications` ledger, referencing the deleted user's id. -/
theorem register_rollback_leaves_pending_token
    (db : DB) (username email pw : String) (newId : Nat) (vtok : String) (now : Nat)
    (hu : username ≠ "") (he : email ≠ "") (hp : pw ≠ "")
    (hvalid : is_valid_email email = true)
    (hfu : db.users.find? (fun v => v.username == username) = none)
    (hfe : db.users.find? (fun v => v.email == email) = none)
    (hstrong : is_strong_password pw = true)
    (hfresh : ∀ v ∈ db.users, v.id ≠ newId) :
    (register db username email pw newId vtok false now).1.status = 500 ∧
    (register db username email pw newId vtok false now).2.users = db.users ∧
    (∀ v ∈ (register db username email pw newId vtok false now).2.users,
      v.id ≠ newId) ∧
    (register db username email pw newId vtok false now).2.email_verifications.find?
        (fun r => r.user_id == newId && r.type == "email_verification") =
      some (verification_token_doc db newId vtok now) := by
  have hrun := register_send_failure_run db username email pw newId vtok now
    hu he hp hvalid hfu hfe hstrong
  have husers : (register db username email pw newId vtok false now).2.users =
      db.users := by
    rw [hrun]
    exact removeFirst_append_singleton db.users _
      (fun y hy => by simp [hfresh y hy]) (by simp [registered_user_doc])
  refine ⟨by rw [hrun], husers, ?_, ?_⟩
  · rw [husers]; exact hfresh
  · rw [hrun]
    have hskip : ∀ y ∈ db.email_verifications.filter
        (fun r => !(r.user_id == newId && r.type == "email_verification")),
        (fun r : LedgerRec => r.user_id == newId && r.type == "email_verification") y
          = false := by
      intro y hy
      have h2 := (List.mem_filter.mp hy).2
      cases hb : y.user_id == newId && y.type == "email_verification"
      · exact hb
      · rw [hb] at h2; exact absurd h2 (by decide)
    rw [find?_append_of_none _ _ hskip]
    simp [List.find?_cons, verification_token_doc]

/-- Witness for C9: after "bob"'s registration fails at the email send, the
user list is back to just "alice" (no user with id 7), while the pending
verification record for user 7 with token "vtokB" is still in the ledger. -/
theorem register_rollback_leaves_pending_token_witness :
    (register dbVerified "bob" "bob@x.com" "Passw0rd1" 7 "vtokB" false 0).1.status
      = 500 ∧
    (register dbVerified "bob" "bob@x.com" "Passw0rd1" 7 "vtokB" false 0).2.users =
      dbVerified.users ∧
    (register dbVerified "bob" "bob@x.com" "Passw0rd1" 7 "vtokB"
        false 0).2.email_verifications.find?
        (fun r => r.user_id == 7 && r.type == "email_verification") =
      some { id := 0, user_id := 7, token := "vtokB", type := "email_verification",
             created_at := 0, expires_at := 86400, used := false } := by
  have h := register_rollback_leaves_pending_token dbVerified "bob" "bob@x.com"
    "Passw0rd1" 7 "vtokB" 0 (by decide) (by decide) (by decide) (by decide)
    (by rfl) (by rfl) (by decide) (by decide)
  exact ⟨h.1, h.2.1, h.2.2.2⟩

/-! ## Theorems: C6 -/

/-- C6 counterexample: forgot-password for the non-existent "bob@x.com" and
for the existing verified "alice@x.com" both answer HTTP 200, but the two
responses are observably different: the message texts differ
("If the email exists, a password reset link has been sent" versus
"Password reset link sent to email"), so the body does reveal whether the
email exists. -/
theorem forgot_password_responses_differ :
    (forgot_password dbVerified "bob@x.com" "rtok" true 0).1.status = 200 ∧
    (forgot_password dbVerified "alice@x.com" "rtok" true 0).1.status = 200 ∧
    (forgot_password dbVerified "bob@x.com" "rtok" true 0).1 ≠
      (forgot_password dbVerified "alice@x.com" "rtok" true 0).1 := by
  decide

/-- C6 (amended): forgot-password for a non-existent email and for an
existent, verified email (with a successful send) both answer HTTP 200 with
a body of the same single-message shape, but the message texts are the two
distinct constants shown, so the status code hides existence while the body
text does not. -/
theorem forgot_password_status_hides_existence
    (db : DB) (email1 email2 rtok : String) (now : Nat) (u : UserRec)
    (h1 : email1 ≠ "") (h2 : email2 ≠ "")
    (hv1 : is_valid_email (pyLower (pyStrip email1)) = true)
    (hv2 : is_valid_email (pyLower (pyStrip email2)) = true)
    (hn1 : db.users.find? (fun v => v.email == pyLower (pyStrip email1)) = none)
    (hf2 : db.users.find? (fun v => v.email == pyLower (pyStrip email2)) = some u)
    (hver : u.email_verified = true) :
    (forgot_password db email1 rtok true now).1 =
      ⟨200, "If the email exists, a password reset link has been sent"⟩ ∧
    (forgot_password db email2 rtok true now).1 =
      ⟨200, "Password reset link sent to email"⟩ := by
  constructor
  · simp [forgot_password, h1, hv1, hn1]
  · simp [forgot_password, h2, hv2, hf2, hver]

/-- Witness for C6 (amended) at the concrete database holding only the
verified "alice". -/
theorem forgot_password_status_hides_existence_witness :
    (forgot_password dbVerified "bob@x.com" "rtokW" true 0).1 =
      ⟨200, "If the email exists, a password reset link has been sent"⟩ ∧
    (forgot_password dbVerified "alice@x.com" "rtokW" true 0).1 =
      ⟨200, "Password reset link sent to email"⟩ :=
  forgot_password_status_hides_existence dbVerified "bob@x.com" "alice@x.com"
    "rtokW" 0 aliceVerified (by decide) (by decide) (by decide) (by decide)
    (by decide) (by decide) (by decide)

/-! ## Theorems: C7 -/

/-- C7 counterexample: the deactivated user "carol" (id 2) presenting a
correctly signed but expired token (issued at 0, presented at its expiry
86400) receives 401 with the token-expired message, not the distinct
"Account is deactivated" message, refuting "yields 401 with the distinct
'deactivated' message, regardless of token validity". -/
theorem token_required_inactive_expired_not_deactivated :
    carolInactive.is_active = false ∧
    token_required dbInactive
        (.bearer (some (generate_token 2 "user" "k" 0))) "k" 86400 =
      .reject 401 "Token expired. Please log in again." ∧
    token_required dbInactive
        (.bearer (some (generate_token 2 "user" "k" 0))) "k" 86400 ≠
      .reject 401 "Account is deactivated" := by
  decide

/-- C7 (amended): absence of a usable bearer token (no header, no second
space-separated part, or an empty token) yields 401 "Token is missing"; a
valid token whose subject is not in the user store yields 401
"User not found"; an `is_active = false` account with a valid token yields
401 with the distinct "Account is deactivated" message; every rejection of
the gate carries status 401 (so an inactive account with an invalid or
expired token still gets 401, with the token error message); and a request
is only ever accepted for a stored, active subject. -/
theorem token_required_gate_behaviour :
    (∀ (db : DB) (key : String) (now : Nat),
      token_required db .absent key now = .reject 401 "Token is missing" ∧
      token_required db .noSecondPart key now = .reject 401 "Token is missing" ∧
      token_required db (.bearer none) key now = .reject 401 "Token is missing") ∧
    (∀ (db : DB) (key : String) (now : Nat) (t : Jwt) (p : JwtPayload) (uid : Nat),
      decode_token t key now = .ok p → parse_object_id p.sub = some uid →
      db.users.find? (fun v => v.id == uid) = none →
      token_required db (.bearer (some t)) key now =
        .reject 401 "User not found") ∧
    (∀ (db : DB) (key : String) (now : Nat) (t : Jwt) (p : JwtPayload)
        (uid : Nat) (u : UserRec),
      decode_token t key now = .ok p → parse_object_id p.sub = some uid →
      db.users.find? (fun v => v.id == uid) = some u → u.is_active = false →
      token_required db (.bearer (some t)) key now =
        .reject 401 "Account is deactivated") ∧
    (∀ (db : DB) (h : AuthHeader) (key : String) (now : Nat) (st : Nat)
        (msg : String),
      token_required db h key now = .reject st msg → st = 401) ∧
    (∀ (db : DB) (h : AuthHeader) (key : String) (now : Nat) (p : JwtPayload),
      token_required db h key now = .accept p →
      ∃ uid u, parse_object_id p.sub = some uid ∧
        db.users.find? (fun v => v.id == uid) = some u ∧ u.is_active = true) := by
  refine ⟨?_, ?_, ?_, ?_, ?_⟩
  · intro db key now
    exact ⟨rfl, rfl, rfl⟩
  · intro db key now t p uid hd hp hf
    simp [token_required, hd, hp, hf]
  · intro db key now t p uid u hd hp hf ha
    simp [token_required, hd, hp, hf, ha]
  · intro db h key now st msg heq
    cases h with
    | absent =>
      simp [token_required] at heq
      exact heq.1.symm
    | noSecondPart =>
      simp [token_required] at heq
      exact heq.1.symm
    | bearer tok =>
      cases tok with
      | none =>
        simp [token_required] at heq
        exact heq.1.symm
      | some t =>
        cases hd : decode_token t key now with
        | error m =>
          simp [token_required, hd] at heq
          exact heq.1.symm
        | ok p =>
          cases hp : parse_object_id p.sub with
          | none =>
            simp [token_required, hd, hp] at heq
            exact heq.1.symm
          | some uid =>
            cases hf : db.users.find? (fun v => v.id == uid) with
            | none =>
              simp [token_required, hd, hp, hf] at heq
              exact heq.1.symm
            | some u =>
              cases ha : u.is_active with
              | false =>
                simp [token_required, hd, hp, hf, ha] at heq
                exact heq.1.symm
              | true =>
                simp [token_required, hd, hp, hf, ha] at heq
  · intro db h key now p heq
    cases h with
    | absent => simp [token_required] at heq
    | noSecondPart => simp [token_required] at heq
    | bearer tok =>
      cases tok with
      | none => simp [token_required] at heq
      | some t =>
        cases hd : decode_token t key now with
        | error m => simp [token_required, hd] at heq
        | ok q =>
          cases hp : parse_object_id q.sub with
          | none => simp [token_required, hd, hp] at heq
          | some uid =>
            cases hf : db.users.find? (fun v => v.id == uid) with
            | none => simp [token_required, hd, hp, hf] at heq
            | some u =>
              cases ha : u.is_active with
              | false => simp [token_required, hd, hp, hf, ha] at heq
              | true =>
                simp [token_required, hd, hp, hf, ha] at heq
                exact ⟨uid, u, heq ▸ hp, hf, ha⟩

/-- Witness for C7 (amended): a missing header is rejected with
"Token is missing", and the deactivated "carol" presenting a valid token
(issued at 0, checked at 10) is rejected with "Account is deactivated". -/
theorem token_required_gate_behaviour_witness :
    token_required dbInactive .absent "k" 10 = .reject 401 "Token is missing" ∧
    token_required dbInactive
        (.bearer (some (generate_token 2 "user" "k" 0))) "k" 10 =
      .reject 401 "Account is deactivated" := by
  refine ⟨(token_required_gate_behaviour.1 dbInactive "k" 10).1, ?_⟩
  exact token_required_gate_behaviour.2.2.1 dbInactive "k" 10
    (generate_token 2 "user" "k" 0)
    { exp := 86400, iat := 0, sub := "2", role := "user" } 2 carolInactive
    (by decide) (by decide) (by rfl) (by rfl)

end MoneyBackend
